import Mathlib

/-!
Shallow embedding of the AGP Strategy Suite analysis core
(`agp_core/analysis/setup_analyzer.py`, `agp_core/setup/setup_correlator.py`,
`agp_core/setup/telemetry_analyzer.py`, `agp_core/setup/rules/*`), together
with theorems settling the specification claims about it.

Conventions: Python floats are embedded as exact rationals `ℚ`; the few
places that use `math.sqrt` / `math.log2` are embedded over `ℝ`.
Python dicts whose iteration order matters are embedded as insertion-ordered
association lists; `sorted(..., key=k, reverse=True)` (a stable sort) is
embedded as a stable insertion sort on the negated key.
-/

namespace AGP

/-- Stable insertion step: place `x` before the first element whose key is
not smaller, mirroring Python's stable ascending `list.sort(key=...)`. -/
def insAsc {α : Type} {β : Type} [LinearOrder β] (key : α → β) (x : α) : List α → List α
  | [] => [x]
  | y :: ys => if key x ≤ key y then x :: y :: ys else y :: insAsc key x ys

/-- Stable ascending insertion sort by a key, the embedding of Python's
`sorted(l, key=...)`; with a negated key it embeds `reverse=True`. -/
def sortAsc {α : Type} {β : Type} [LinearOrder β] (key : α → β) : List α → List α
  | [] => []
  | x :: xs => insAsc key x (sortAsc key xs)

theorem mem_insAsc {α β : Type} [LinearOrder β] (key : α → β) (x a : α) (l : List α) :
    a ∈ insAsc key x l ↔ a = x ∨ a ∈ l := by
  induction l with
  | nil => simp [insAsc]
  | cons y ys ih =>
    by_cases h : key x ≤ key y
    · simp [insAsc, h]
    · simp [insAsc, h, ih]
      tauto

theorem mem_sortAsc {α β : Type} [LinearOrder β] (key : α → β) (a : α) (l : List α) :
    a ∈ sortAsc key l ↔ a ∈ l := by
  induction l with
  | nil => simp [sortAsc]
  | cons y ys ih => simp [sortAsc, mem_insAsc, ih]

theorem pairwise_insAsc {α β : Type} [LinearOrder β] (key : α → β) (x : α) (l : List α)
    (h : l.Pairwise (fun a b => key a ≤ key b)) :
    (insAsc key x l).Pairwise (fun a b => key a ≤ key b) := by
  induction l with
  | nil => simp [insAsc]
  | cons y ys ih =>
    rcases List.pairwise_cons.mp h with ⟨hy, hys⟩
    rw [insAsc]
    by_cases hk : key x ≤ key y
    · rw [if_pos hk]
      refine List.pairwise_cons.mpr ⟨?_, h⟩
      intro b hb
      rcases List.mem_cons.mp hb with hb | hb
      · exact hb ▸ hk
      · exact le_trans hk (hy b hb)
    · rw [if_neg hk]
      refine List.pairwise_cons.mpr ⟨?_, ih hys⟩
      intro b hb
      rcases (mem_insAsc key x b ys).mp hb with hb | hb
      · exact hb ▸ le_of_lt (lt_of_not_le hk)
      · exact hy b hb

theorem pairwise_sortAsc {α β : Type} [LinearOrder β] (key : α → β) (l : List α) :
    (sortAsc key l).Pairwise (fun a b => key a ≤ key b) := by
  induction l with
  | nil => simp [sortAsc]
  | cons y ys ih => exact pairwise_insAsc key y (sortAsc key ys) ih

/-- Largest element of a nonempty list of rationals (`max(...)` in Python);
`0` for the empty list (the analyzed code only applies it to nonempty laps). -/
def listMax : List ℚ → ℚ
  | [] => 0
  | x :: xs => xs.foldl max x

/-- Smallest element of a nonempty list of rationals (`min(...)` in Python). -/
def listMin : List ℚ → ℚ
  | [] => 0
  | x :: xs => xs.foldl min x

/-- Python `int(q)` on a float: truncation toward zero. -/
def pyInt (q : ℚ) : ℤ := if 0 ≤ q then ⌊q⌋ else ⌈q⌉

/-- Per-wheel values in FL, FR, RL, RR order, the embedding of the
4-element lists used throughout `setup_analyzer.py`. -/
structure Quad where
  fl : ℚ
  fr : ℚ
  rl : ℚ
  rr : ℚ
  deriving DecidableEq, Repr

/-- Minimum over the four wheels (`min(list)` in Python). -/
def Quad.qmin (q : Quad) : ℚ := min (min q.fl q.fr) (min q.rl q.rr)

/-- `CornerPhase` enum of `setup_analyzer.py`. -/
inductive CornerPhase where
  | straight
  | braking
  | entry
  | mid
  | exit
  | acceleration
  deriving DecidableEq, Repr

/-- `Problem` enum of `setup_analyzer.py`. -/
inductive Problem where
  | understeerEntry
  | understeerMid
  | understeerExit
  | oversteerEntry
  | oversteerMid
  | oversteerExit
  | wheelspin
  | wheelLock
  | instabilityHighSpeed
  | tireOverheatFront
  | tireOverheatRear
  | tireColdFront
  | tireColdRear
  | brakeOverheatFront
  | brakeOverheatRear
  | excessiveRoll
  | bottoming
  | poorTraction
  deriving DecidableEq, Repr

/-- `SetupParameter` of `setup_analyzer.py`: name, display name, unit,
category and the insertion-ordered `effects` dict (negative = helps). -/
structure SetupParameter where
  name : String
  displayName : String
  unit : String
  category : String
  effects : List (Problem × ℚ)
  deriving DecidableEq, Repr

/-- Lookup in an insertion-ordered effects dict, defaulting to `0`. -/
def effList : List (Problem × ℚ) → Problem → ℚ
  | [], _ => 0
  | e :: es, pb => if e.1 = pb then e.2 else effList es pb

/-- `param.effects.get(problem, 0)`. -/
def effOf (p : SetupParameter) (pb : Problem) : ℚ :=
  effList p.effects pb

/-- The `SetupAnalyzer._init_parameters` knowledge table, in the insertion
order of the Python dict (which the scoring loops iterate in). -/
def parameters : List (String × SetupParameter) :=
  [ ("front_spring", ⟨"front_spring", "Ressort Avant", "N/mm", "suspension",
      [(.understeerEntry, -0.25), (.understeerMid, -0.15), (.oversteerExit, 0.15),
       (.tireOverheatFront, 0.1), (.instabilityHighSpeed, -0.1)]⟩),
    ("rear_spring", ⟨"rear_spring", "Ressort Arriere", "N/mm", "suspension",
      [(.understeerEntry, 0.15), (.oversteerExit, -0.3), (.poorTraction, 0.15),
       (.tireOverheatRear, 0.1)]⟩),
    ("front_slow_bump", ⟨"front_slow_bump", "Bump Lent AV", "clicks", "dampers",
      [(.understeerEntry, -0.2), (.understeerMid, -0.1), (.instabilityHighSpeed, -0.1)]⟩),
    ("front_fast_bump", ⟨"front_fast_bump", "Bump Rapide AV", "clicks", "dampers",
      [(.bottoming, -0.2)]⟩),
    ("rear_slow_bump", ⟨"rear_slow_bump", "Bump Lent AR", "clicks", "dampers",
      [(.oversteerExit, -0.15), (.poorTraction, 0.12), (.wheelspin, 0.1)]⟩),
    ("rear_fast_bump", ⟨"rear_fast_bump", "Bump Rapide AR", "clicks", "dampers",
      [(.bottoming, -0.15), (.poorTraction, 0.08)]⟩),
    ("front_slow_rebound", ⟨"front_slow_rebound", "Detente Lente AV", "clicks", "dampers",
      [(.understeerEntry, 0.18), (.instabilityHighSpeed, -0.15)]⟩),
    ("front_fast_rebound", ⟨"front_fast_rebound", "Detente Rapide AV", "clicks", "dampers",
      [(.instabilityHighSpeed, -0.1)]⟩),
    ("rear_slow_rebound", ⟨"rear_slow_rebound", "Detente Lente AR", "clicks", "dampers",
      [(.oversteerEntry, -0.2), (.oversteerExit, 0.12), (.poorTraction, -0.08)]⟩),
    ("rear_fast_rebound", ⟨"rear_fast_rebound", "Detente Rapide AR", "clicks", "dampers",
      [(.instabilityHighSpeed, -0.08)]⟩),
    ("front_arb", ⟨"front_arb", "Barre Anti-Roulis AV", "N/mm", "suspension",
      [(.understeerEntry, -0.3), (.understeerMid, -0.35), (.oversteerExit, 0.2),
       (.excessiveRoll, -0.3), (.tireOverheatFront, 0.08)]⟩),
    ("rear_arb", ⟨"rear_arb", "Barre Anti-Roulis AR", "N/mm", "suspension",
      [(.understeerEntry, 0.2), (.understeerMid, 0.25), (.oversteerExit, -0.35),
       (.oversteerEntry, -0.15), (.excessiveRoll, -0.25), (.poorTraction, 0.12)]⟩),
    ("front_camber", ⟨"front_camber", "Carrossage AV", "deg", "geometry",
      [(.understeerMid, -0.25), (.tireOverheatFront, 0.15)]⟩),
    ("rear_camber", ⟨"rear_camber", "Carrossage AR", "deg", "geometry",
      [(.oversteerMid, -0.2), (.tireOverheatRear, 0.15), (.poorTraction, 0.08)]⟩),
    ("front_toe", ⟨"front_toe", "Pincement AV", "deg", "geometry",
      [(.understeerEntry, 0.15), (.instabilityHighSpeed, -0.2), (.tireOverheatFront, 0.1)]⟩),
    ("rear_toe", ⟨"rear_toe", "Pincement AR", "deg", "geometry",
      [(.oversteerExit, -0.25), (.instabilityHighSpeed, -0.3), (.poorTraction, -0.1),
       (.tireOverheatRear, 0.1)]⟩),
    ("front_wing", ⟨"front_wing", "Aileron AV", "deg", "aero",
      [(.understeerMid, -0.2), (.understeerEntry, -0.15)]⟩),
    ("rear_wing", ⟨"rear_wing", "Aileron AR", "deg", "aero",
      [(.oversteerMid, -0.3), (.oversteerExit, -0.2), (.instabilityHighSpeed, -0.35),
       (.poorTraction, -0.2)]⟩),
    ("front_ride_height", ⟨"front_ride_height", "Hauteur Caisse AV", "mm", "aero",
      [(.understeerMid, 0.1), (.bottoming, -0.3)]⟩),
    ("rear_ride_height", ⟨"rear_ride_height", "Hauteur Caisse AR", "mm", "aero",
      [(.oversteerMid, 0.1), (.bottoming, -0.25), (.poorTraction, 0.08)]⟩),
    ("diff_power", ⟨"diff_power", "Diff Puissance", "%", "differential",
      [(.poorTraction, -0.25), (.wheelspin, -0.15), (.oversteerExit, 0.3)]⟩),
    ("diff_coast", ⟨"diff_coast", "Diff Deceleration", "%", "differential",
      [(.oversteerEntry, 0.25), (.instabilityHighSpeed, 0.1)]⟩),
    ("diff_preload", ⟨"diff_preload", "Precharge Diff", "Nm", "differential",
      [(.poorTraction, -0.1), (.oversteerExit, 0.08)]⟩),
    ("brake_bias", ⟨"brake_bias", "Repartition Freinage", "%", "brakes",
      [(.oversteerEntry, -0.35), (.understeerEntry, 0.25), (.wheelLock, -0.2),
       (.brakeOverheatFront, 0.15), (.brakeOverheatRear, -0.15)]⟩),
    ("front_pressure", ⟨"front_pressure", "Pression AV", "kPa", "tires",
      [(.understeerMid, 0.12), (.tireOverheatFront, -0.15), (.tireColdFront, 0.2)]⟩),
    ("rear_pressure", ⟨"rear_pressure", "Pression AR", "kPa", "tires",
      [(.oversteerMid, 0.08), (.poorTraction, 0.1), (.tireOverheatRear, -0.12),
       (.tireColdRear, 0.18)]⟩) ]

/-- Lookup in a string-keyed association list (a Python dict `get`). -/
def assocStr {α : Type} : List (String × α) → String → Option α
  | [], _ => none
  | e :: es, name => if e.1 = name then some e.2 else assocStr es name

/-- `self.parameters.get(param_name)`. -/
def paramOf (name : String) : Option SetupParameter :=
  assocStr parameters name

/-- Optimal-range table entry of `SetupAnalyzer._init_optimal_ranges`
(min, max, optimal triples plus the brake ceiling). -/
structure OptimalRanges where
  tireTempLo : ℚ
  tireTempHi : ℚ
  tireTempOpt : ℚ
  tirePressureLo : ℚ
  tirePressureHi : ℚ
  tirePressureOpt : ℚ
  brakeTempLo : ℚ
  brakeTempHi : ℚ
  brakeTempOpt : ℚ
  brakeTempMax : ℚ
  engineTempLo : ℚ
  engineTempHi : ℚ
  engineTempOpt : ℚ
  deriving DecidableEq, Repr

/-- The `"GT3"` entry of `optimal_ranges`. -/
def gt3Ranges : OptimalRanges :=
  ⟨75, 95, 85, 170, 190, 180, 300, 600, 450, 700, 82, 105, 92⟩

/-- The `"LMP2"` entry of `optimal_ranges`. -/
def lmp2Ranges : OptimalRanges :=
  ⟨80, 95, 87, 165, 180, 172, 350, 650, 500, 750, 88, 105, 95⟩

/-- The `"LMH"` entry of `optimal_ranges`. -/
def lmhRanges : OptimalRanges :=
  ⟨82, 98, 90, 160, 178, 168, 380, 680, 530, 780, 90, 108, 98⟩

/-- The fields of a telemetry `Sample` (from `setup_analyzer.py`) that the
behavior/problem analysis reads; `slips` embeds `slip_ratio`, the other quads
embed `grip`, `tire_temp`, `brake_temp` and `ride_height`. -/
structure Sample where
  phase : CornerPhase
  speed : ℚ
  throttle : ℚ
  brake : ℚ
  steering : ℚ
  grip : Quad
  slips : Quad
  tireTemp : Quad
  brakeTemp : Quad
  rideHeight : Quad
  deriving DecidableEq, Repr

/-- `SetupAnalyzer._detect_vehicle_category`: downforce-based tiering with
strict `>` comparisons, gated on positive speed (otherwise the category held
in `self.vehicle_category` is kept). -/
def detectVehicleCategory (speedKmh frontDownforce rearDownforce : ℚ)
    (current : String) : String :=
  if speedKmh > 0 then
    if frontDownforce + rearDownforce > 15000 then "LMH"
    else if frontDownforce + rearDownforce > 8000 then "LMP2"
    else "GT3"
  else current

/-- Understeer/oversteer/neutral fractions for one phase, the value type of
the `behavior` dict built by `_analyze_behavior`. -/
structure BehaviorRatios where
  understeer : ℚ
  oversteer : ℚ
  neutral : ℚ
  deriving DecidableEq, Repr

/-- Per-sample understeer test of `_analyze_behavior`:
`front_grip < rear_grip - 0.03 or front_slip > rear_slip + 0.015`. -/
def sampleUnder (s : Sample) : Bool :=
  let frontGrip := (s.grip.fl + s.grip.fr) / 2
  let rearGrip := (s.grip.rl + s.grip.rr) / 2
  let frontSlip := (|s.slips.fl| + |s.slips.fr|) / 2
  let rearSlip := (|s.slips.rl| + |s.slips.rr|) / 2
  decide (frontGrip < rearGrip - 0.03) || decide (frontSlip > rearSlip + 0.015)

/-- Per-sample oversteer test of `_analyze_behavior` (the `elif` branch):
`rear_grip < front_grip - 0.03 or rear_slip > front_slip + 0.015`. -/
def sampleOver (s : Sample) : Bool :=
  let frontGrip := (s.grip.fl + s.grip.fr) / 2
  let rearGrip := (s.grip.rl + s.grip.rr) / 2
  let frontSlip := (|s.slips.fl| + |s.slips.fr|) / 2
  let rearSlip := (|s.slips.rl| + |s.slips.rr|) / 2
  decide (rearGrip < frontGrip - 0.03) || decide (rearSlip > frontSlip + 0.015)

/-- `SetupAnalyzer._analyze_behavior` for one phase: fewer than 10 samples of
the phase gives the neutral default, otherwise the counted fractions. -/
def analyzeBehavior (samples : List Sample) (phase : CornerPhase) : BehaviorRatios :=
  let phaseSamples := samples.filter (fun s => s.phase = phase)
  if phaseSamples.length < 10 then ⟨0, 0, 1⟩
  else
    let total : ℚ := phaseSamples.length
    let under := phaseSamples.countP (fun s => sampleUnder s)
    let over := phaseSamples.countP (fun s => !sampleUnder s && sampleOver s)
    let neutral := phaseSamples.countP (fun s => !sampleUnder s && !sampleOver s)
    ⟨under / total, over / total, neutral / total⟩

/-- `SetupAnalyzer._calc_wheelspin_pct`. -/
def wheelspinPct (samples : List Sample) : ℚ :=
  let exitSamples := samples.filter (fun s => s.phase = .exit)
  if exitSamples.isEmpty then 0
  else (exitSamples.countP (fun s => (|s.slips.rl| + |s.slips.rr|) / 2 > 0.08) : ℚ) /
    exitSamples.length

/-- `SetupAnalyzer._calc_lockup_pct`. -/
def lockupPct (samples : List Sample) : ℚ :=
  let brakeSamples := samples.filter (fun s => s.phase = .braking ∨ s.phase = .entry)
  if brakeSamples.isEmpty then 0
  else (brakeSamples.countP (fun s => s.slips.qmin < -0.1) : ℚ) / brakeSamples.length

/-- `SetupAnalyzer._calc_stability_score`. -/
def stabilityScore (samples : List Sample) : ℚ :=
  let highSpeed := samples.filter (fun s => s.phase = .straight ∧ s.speed > 180)
  if highSpeed.length < 20 then 1
  else
    let corrections := (highSpeed.map (fun s => s.steering)).sum / highSpeed.length
    max 0 (1 - corrections * 8)

/-- Lap-average front tire temperature
`sum(s.tire_temp[0] + s.tire_temp[1]) / (len(samples) * 2)`. -/
def frontTireTemp (samples : List Sample) : ℚ :=
  (samples.map (fun s => s.tireTemp.fl + s.tireTemp.fr)).sum / ((samples.length : ℚ) * 2)

/-- Lap-average rear tire temperature. -/
def rearTireTemp (samples : List Sample) : ℚ :=
  (samples.map (fun s => s.tireTemp.rl + s.tireTemp.rr)).sum / ((samples.length : ℚ) * 2)

/-- Lap peak front brake temperature `max(max(bt[0], bt[1]))`. -/
def frontBrakePeak (samples : List Sample) : ℚ :=
  listMax (samples.map (fun s => max s.brakeTemp.fl s.brakeTemp.fr))

/-- Lap peak rear brake temperature. -/
def rearBrakePeak (samples : List Sample) : ℚ :=
  listMax (samples.map (fun s => max s.brakeTemp.rl s.brakeTemp.rr))

/-- Lap maximum axle roll `max(|rh[0]-rh[1]|, |rh[2]-rh[3]|)`. -/
def maxRollOf (samples : List Sample) : ℚ :=
  max (listMax (samples.map (fun s => |s.rideHeight.fl - s.rideHeight.fr|)))
    (listMax (samples.map (fun s => |s.rideHeight.rl - s.rideHeight.rr|)))

/-- Fraction of samples with any ride height below 5. -/
def bottomingFrac (samples : List Sample) : ℚ :=
  (samples.countP (fun s => s.rideHeight.qmin < 5) : ℚ) / (samples.length : ℚ)

/-- `SetupAnalyzer._detect_problems`, producing the `problems` dict as an
association list in the insertion order of the Python code. -/
def detectProblems (samples : List Sample) (ranges : OptimalRanges) : List (Problem × ℚ) :=
  let entryB := analyzeBehavior samples .entry
  let midB := analyzeBehavior samples .mid
  let exitB := analyzeBehavior samples .exit
  let frontTemp := frontTireTemp samples
  let rearTemp := rearTireTemp samples
  let frontBrakeMax := frontBrakePeak samples
  let rearBrakeMax := rearBrakePeak samples
  let wheelspin := wheelspinPct samples
  let lockup := lockupPct samples
  let stability := stabilityScore samples
  let maxRoll := maxRollOf samples
  let bottoming := bottomingFrac samples
  (if entryB.understeer > 0.35 then [(Problem.understeerEntry, entryB.understeer)] else []) ++
  (if midB.understeer > 0.4 then [(Problem.understeerMid, midB.understeer)] else []) ++
  (if exitB.understeer > 0.35 then [(Problem.understeerExit, exitB.understeer)] else []) ++
  (if entryB.oversteer > 0.3 then [(Problem.oversteerEntry, entryB.oversteer)] else []) ++
  (if midB.oversteer > 0.35 then [(Problem.oversteerMid, midB.oversteer)] else []) ++
  (if exitB.oversteer > 0.3 then [(Problem.oversteerExit, exitB.oversteer)] else []) ++
  (if frontTemp > ranges.tireTempHi then
    [(Problem.tireOverheatFront, min 1 ((frontTemp - ranges.tireTempHi) / 10))] else []) ++
  (if frontTemp < ranges.tireTempLo then
    [(Problem.tireColdFront, min 1 ((ranges.tireTempLo - frontTemp) / 10))] else []) ++
  (if rearTemp > ranges.tireTempHi then
    [(Problem.tireOverheatRear, min 1 ((rearTemp - ranges.tireTempHi) / 10))] else []) ++
  (if rearTemp < ranges.tireTempLo then
    [(Problem.tireColdRear, min 1 ((ranges.tireTempLo - rearTemp) / 10))] else []) ++
  (if frontBrakeMax > ranges.brakeTempMax then
    [(Problem.brakeOverheatFront, min 1 ((frontBrakeMax - ranges.brakeTempMax) / 100))] else []) ++
  (if rearBrakeMax > ranges.brakeTempMax then
    [(Problem.brakeOverheatRear, min 1 ((rearBrakeMax - ranges.brakeTempMax) / 100))] else []) ++
  (if wheelspin > 0.1 then
    [(Problem.wheelspin, min 1 (wheelspin * 2)), (Problem.poorTraction, min 1 (wheelspin * 1.5))]
   else []) ++
  (if lockup > 0.1 then [(Problem.wheelLock, min 1 (lockup * 2))] else []) ++
  (if stability < 0.7 then [(Problem.instabilityHighSpeed, 1 - stability)] else []) ++
  (if maxRoll > 12 then [(Problem.excessiveRoll, min 1 ((maxRoll - 12) / 10))] else []) ++
  (if bottoming > 0.05 then [(Problem.bottoming, min 1 (bottoming * 5))] else [])

/-- The running `applied_effects` accumulator of `generate_recommendations`:
`none` embeds absence of the key from the Python dict. -/
def AppliedEffects : Type := Problem → Option ℚ

/-- The empty `applied_effects` dict. -/
def noEffects : AppliedEffects := fun _ => none

/-- One conflict test of `_find_solutions`: the effect's sign disagrees with
the sign already accumulated for that problem (keys absent from the
accumulator never conflict). -/
def conflictsWith (applied : AppliedEffects) (pe : Problem × ℚ) : Bool :=
  match applied pe.1 with
  | none => false
  | some acc => (decide (pe.2 > 0) && decide (acc < 0)) || (decide (pe.2 < 0) && decide (acc > 0))

/-- The conflict-penalty loop of `_find_solutions`: starting from the base
score `|effect|`, multiply by `0.5` once per conflicting effect of the
parameter, iterating the `effects` dict in order. -/
def penalizedScore (applied : AppliedEffects) (param : SetupParameter) (base : ℚ) : ℚ :=
  param.effects.foldl (fun sc pe => if conflictsWith applied pe then sc * 0.5 else sc) base

/-- Number of effects of `param` that conflict with the accumulator. -/
def conflictCount (applied : AppliedEffects) (param : SetupParameter) : ℕ :=
  param.effects.countP (fun pe => conflictsWith applied pe)

/-- One `(param_name, score, direction)` tuple of `_find_solutions`. -/
structure Solution where
  name : String
  score : ℚ
  direction : String
  deriving DecidableEq, Repr

/-- `SetupAnalyzer._find_solutions`: scan the parameter table in insertion
order, score `|effect|` with the conflict penalty, keep scores `> 0.1`, and
stable-sort by score descending. -/
def findSolutions (problem : Problem) (applied : AppliedEffects) : List Solution :=
  sortAsc (fun s => -s.score)
    (parameters.filterMap (fun e =>
      let effect := effOf e.2 problem
      if effect = 0 then none
      else
        let direction := if effect < 0 then "increase" else "decrease"
        let score := penalizedScore applied e.2 |effect|
        if score > 0.1 then some ⟨e.1, score, direction⟩ else none))

/-- The fields of a `Recommendation` that the analysis claims concern
(`value`, `reason` and `side_effects` are presentation-only and not read by
any claim). -/
structure Recommendation where
  parameter : String
  direction : String
  priority : ℤ
  addresses : List Problem
  confidence : ℚ
  deriving DecidableEq, Repr

/-- The `Recommendation(...)` construction of `generate_recommendations`:
`priority = int(severity * 10)`, `confidence = min(1, score * severity)`,
`parameter = param.display_name`. -/
def mkRecommendation (problem : Problem) (severity : ℚ) (param : SetupParameter)
    (score : ℚ) (direction : String) : Recommendation :=
  { parameter := param.displayName
    direction := direction
    priority := pyInt (severity * 10)
    addresses := [problem]
    confidence := min 1 (score * severity) }

/-- `applied_effects[p] = applied_effects.get(p, 0) + effect * mult` for every
effect of the parameter, with `mult = 1` for `"increase"` else `-1`. -/
def applyParamEffects (applied : AppliedEffects) (param : SetupParameter)
    (direction : String) : AppliedEffects :=
  param.effects.foldl
    (fun a pe => fun q =>
      if q = pe.1 then some ((a pe.1).getD 0 + pe.2 * (if direction = "increase" then 1 else -1))
      else a q)
    applied

/-- Loop state of `generate_recommendations`: the recommendations collected
so far and the `applied_effects` accumulator. -/
structure GenState where
  recs : List Recommendation
  applied : AppliedEffects

/-- Body of the inner `for param_name, score, direction in solutions[:2]`
loop: unknown parameters are skipped, otherwise a recommendation is appended
and the accumulator updated. -/
def stepSolution (problem : Problem) (severity : ℚ) (st : GenState) (sol : Solution) :
    GenState :=
  match paramOf sol.name with
  | none => st
  | some param =>
    { recs := st.recs ++ [mkRecommendation problem severity param sol.score sol.direction]
      applied := applyParamEffects st.applied param sol.direction }

/-- Body of the outer `for problem, severity in sorted_problems[:5]` loop;
severities below `0.2` are skipped (`continue`). -/
def stepProblem (st : GenState) (pb : Problem × ℚ) : GenState :=
  if pb.2 < 0.2 then st
  else ((findSolutions pb.1 st.applied).take 2).foldl (stepSolution pb.1 pb.2) st

/-- The full recommendation list accumulated by `generate_recommendations`
before de-duplication, from the problems dict of the most recent lap. -/
def rawRecommendations (problems : List (Problem × ℚ)) : List Recommendation :=
  (((sortAsc (fun pb => -pb.2) problems).take 5).foldl stepProblem ⟨[], noEffects⟩).recs

/-- The de-duplication loop of `generate_recommendations`: keep the first
occurrence of each parameter name (`seen` is the Python set). -/
def dedupKeep : List Recommendation → List String → List Recommendation
  | [], _ => []
  | r :: rs, seen =>
    if r.parameter ∈ seen then dedupKeep rs seen
    else r :: dedupKeep rs (r.parameter :: seen)

/-- `SetupAnalyzer.generate_recommendations` as a function of the `problems`
dict of the most recent lap analysis: build, stable-sort by priority
descending, de-duplicate by parameter, cap at 5. -/
def generateRecommendations (problems : List (Problem × ℚ)) : List Recommendation :=
  (dedupKeep (sortAsc (fun r => -r.priority) (rawRecommendations problems)) []).take 5

/-! ## Setup correlator (`setup_correlator.py`) -/

/-- `ParameterRange` of `setup_correlator.py` (the mutable `optimal_value`
cache written by `_calculate_parameter_correlation` is presentation-only and
not modelled). -/
structure ParameterRange where
  parameterName : String
  minValue : ℚ
  maxValue : ℚ
  values : List ℚ
  lapTimes : List ℚ
  deriving DecidableEq, Repr

/-- `SetupCorrelation` result record of `telemetry_models`, restricted to the
fields the lap-time correlation path writes. -/
structure SetupCorrelation where
  parameterName : String
  parameterValue : ℚ
  lapTimeCorrelation : ℝ
  confidence : ℝ
  sampleCount : ℕ
  suggestedDirection : String
  suggestedChange : ℝ

/-- `sum(values)`. -/
def sumL (l : List ℚ) : ℚ := l.sum

/-- `sum(x ** 2 for x in values)`. -/
def sumSq (l : List ℚ) : ℚ := (l.map (fun x => x ^ 2)).sum

/-- `sum(x * y for x, y in zip(xs, ys))`. -/
def sumProd (xs ys : List ℚ) : ℚ := (List.zipWith (fun x y => x * y) xs ys).sum

/-- One factor `n * sum_sq - sum ** 2` of the Pearson denominator, with `n`
the sample count used by the code (`len(values)` for both factors). -/
def sPart (n : ℕ) (l : List ℚ) : ℚ := (n : ℚ) * sumSq l - (sumL l) ^ 2

/-- Pearson numerator `n * sum_xy - sum_x * sum_y`. -/
def pearsonNum (xs ys : List ℚ) : ℚ :=
  (xs.length : ℚ) * sumProd xs ys - sumL xs * sumL ys

/-- Pearson denominator
`math.sqrt((n*sum_x2 - sum_x**2) * (n*sum_y2 - sum_y**2))`. -/
noncomputable def pearsonDen (xs ys : List ℚ) : ℝ :=
  Real.sqrt ((sPart xs.length xs * sPart xs.length ys : ℚ) : ℝ)

/-- `SetupCorrelator._calculate_parameter_correlation`: `none` embeds the
`return None` paths (fewer than 2 values, zero denominator). -/
noncomputable def calcParamCorrelation (pr : ParameterRange) : Option SetupCorrelation :=
  if pr.values.length < 2 then none
  else
    let n := pr.values.length
    let den := pearsonDen pr.values pr.lapTimes
    if den = 0 then none
    else
      let correlation : ℝ := ((pearsonNum pr.values pr.lapTimes : ℚ) : ℝ) / den
      let current : ℚ := (pr.values.getLast?).getD 0
      let dc : String × ℝ :=
        if |correlation| < 0.3 then ("optimal", 0)
        else if correlation < 0 then ("increase", ((pr.maxValue - current : ℚ) : ℝ) * 0.5)
        else ("decrease", ((current - pr.minValue : ℚ) : ℝ) * 0.5)
      let confidence : ℝ := min 100 (|correlation| * 100 * Real.logb 2 ((n : ℝ) + 1))
      some
        { parameterName := pr.parameterName
          parameterValue := current
          lapTimeCorrelation := correlation
          confidence := confidence
          sampleCount := n
          suggestedDirection := dc.1
          suggestedChange := dc.2 }

/-- `SetupCorrelator.analyze_correlations` as a function of the session count
and the `parameter_ranges` dict: fewer than 2 sessions gives `[]`, parameters
with fewer than 2 values are skipped (`continue`), failed correlations are
dropped, and the result is stable-sorted by confidence descending. -/
noncomputable def analyzeCorrelations (sessionCount : ℕ)
    (ranges : List (String × ParameterRange)) : List SetupCorrelation :=
  if sessionCount < 2 then []
  else
    sortAsc (fun c => -c.confidence)
      (ranges.filterMap (fun e =>
        if e.2.values.length < 2 then none else calcParamCorrelation e.2))

/-- The fresh `ParameterRange(parameter_name=name, min_value=value,
max_value=value)` created by `_update_parameter_ranges`. -/
def ParameterRange.init (name : String) (v : ℚ) : ParameterRange :=
  ⟨name, v, v, [], []⟩

/-- The per-parameter mutation of `_update_parameter_ranges`: append the
value and lap time, then fold the value into `min_value`/`max_value`. -/
def ParameterRange.touch (pr : ParameterRange) (v lt : ℚ) : ParameterRange :=
  { pr with
    values := pr.values ++ [v]
    lapTimes := pr.lapTimes ++ [lt]
    minValue := min pr.minValue v
    maxValue := max pr.maxValue v }

/-- Update of the `parameter_ranges` dict for one `(name, value)` pair:
create the entry if absent, then apply `ParameterRange.touch`. -/
def updParam : List (String × ParameterRange) → String → ℚ → ℚ →
    List (String × ParameterRange)
  | [], name, v, lt => [(name, (ParameterRange.init name v).touch v lt)]
  | e :: es, name, v, lt =>
    if e.1 = name then (e.1, e.2.touch v lt) :: es
    else e :: updParam es name v lt

/-- `SetupCorrelator._update_parameter_ranges`: fold every extracted
`(name, value)` parameter of the setup into the ranges dict. -/
def updateParameterRanges (st : List (String × ParameterRange))
    (params : List (String × ℚ)) (lapTime : ℚ) : List (String × ParameterRange) :=
  params.foldl (fun acc p => updParam acc p.1 p.2 lapTime) st

/-- The `parameter_ranges` state after a sequence of `add_session` calls on a
fresh `SetupCorrelator`, each session given by its extracted parameters and
its `best_lap_time`. -/
def runCorrelator (sessions : List (List (String × ℚ) × ℚ)) :
    List (String × ParameterRange) :=
  sessions.foldl (fun st s => updateParameterRanges st s.1 s.2) []

/-! ## Corner traction-loss detection (`telemetry_analyzer.py`) -/

/-- `TelemetryAnalyzer.TRACTION_SLIP_RATIO_THRESHOLD`. -/
def tractionSlipThreshold : ℚ := 0.15

/-- The fields of a `TelemetryPoint` read by `_detect_traction_loss`:
`throttle` and the two rear wheel slip ratios (`slip_ratio_rl`,
`slip_ratio_rr`). -/
structure TelemetryPoint where
  throttle : ℚ
  slipRL : ℚ
  slipRR : ℚ
  deriving DecidableEq, Repr

/-- Loop body of `_detect_traction_loss`: state is
`(traction_loss_count, max_severity)`. -/
def tractionStep (st : ℕ × ℚ) (p : TelemetryPoint) : ℕ × ℚ :=
  if p.throttle > 50 then
    let rearSlip := max |p.slipRL| |p.slipRR|
    if rearSlip > tractionSlipThreshold then
      (st.1 + 1, max st.2 (min 100 (rearSlip * 200)))
    else st
  else st

/-- `TelemetryAnalyzer._detect_traction_loss`: returns
`(detected, max_severity)` with `detected = traction_loss_count > 3`. -/
def detectTractionLoss (points : List TelemetryPoint) : Bool × ℚ :=
  if points.isEmpty then (false, 0)
  else
    let st := points.foldl tractionStep (0, 0)
    (decide (st.1 > 3), st.2)

/-- Specification-side predicate: a sample qualifies for traction loss when
throttle exceeds 50 and the larger rear slip-ratio magnitude exceeds the
threshold. -/
def tractionQualifies (p : TelemetryPoint) : Bool :=
  decide (p.throttle > 50) && decide (max |p.slipRL| |p.slipRR| > tractionSlipThreshold)

/-- Specification-side per-sample severity `min(100, slip_ratio * 200)`. -/
def sampleTractionSeverity (p : TelemetryPoint) : ℚ :=
  min 100 (max |p.slipRL| |p.slipRR| * 200)

/-- Specification-side corner severity: maximum per-sample severity over the
qualifying samples (`0` when none qualify). -/
def cornerTractionSeverity (points : List TelemetryPoint) : ℚ :=
  ((points.filter tractionQualifies).map sampleTractionSeverity).foldl max 0

/-! ## Rule engine (`rules/base.py`, `rules/brake_rules.py`,
`rules/traction_rules.py`) -/

/-- `Severity` enum of `entities/diagnostic.py`. -/
inductive Severity where
  | critical
  | warning
  | info
  | success
  deriving DecidableEq, Repr

/-- The `severity_order` ranking used by `RuleEngine.evaluate` (all four
members are listed, so the `.get(..., 99)` default is unreachable). -/
def severityRank : Severity → ℕ
  | .critical => 0
  | .warning => 1
  | .info => 2
  | .success => 3

/-- The fields of a `Diagnostic` the rule claims concern. -/
structure Diagnostic where
  title : String
  description : String
  severity : Severity
  priority : ℤ
  deriving DecidableEq, Repr

/-- The `RuleContext` fields read by the keyword rules. -/
structure RuleContext where
  driverFeedback : String
  deriving DecidableEq, Repr

/-- ASCII lowercasing of one character (`str.lower` restricted to the ASCII
keywords the rules use). -/
def lowerChar (c : Char) : Char :=
  if 'A' ≤ c ∧ c ≤ 'Z' then Char.ofNat (c.toNat + 32) else c

/-- `feedback.lower()` as a character list. -/
def asciiLower (s : String) : List Char := s.data.map lowerChar

/-- Whether the first list starts the second. -/
def leadsWith : List Char → List Char → Bool
  | [], _ => true
  | _ :: _, [] => false
  | a :: as, b :: bs => a == b && leadsWith as bs

/-- Python's substring test `pat in s` over character lists. -/
def occursIn (pat : List Char) : List Char → Bool
  | [] => pat.isEmpty
  | l@(_ :: rest) => leadsWith pat l || occursIn pat rest

/-- `any(kw in feedback_lower for kw in [...])`. -/
def kwMatch (feedback : String) (kws : List String) : Bool :=
  kws.any (fun kw => occursIn kw.data (asciiLower feedback))

/-- Apostrophe character, used inside one French keyword. -/
def apos : Char := Char.ofNat 39

/-- Keyword set of `RearLockupRule.evaluate`. -/
def rearLockupKeywords : List String :=
  ["rear lock", "rear lockup", "blocage arriere", "rear wheels lock",
   "arriere bloque", "spin braking"]

/-- Keyword set of `PowerOversteerRule.evaluate`. -/
def powerOversteerKeywords : List String :=
  ["power oversteer", "snap oversteer", "survirage acceleration", "rear snap",
   ("arriere part a l".push apos) ++ "acceleration"]

/-- The diagnostic built by `RearLockupRule` (class severity `CRITICAL`,
recommendations are presentation-only and not modelled). -/
def rearLockupDiag : Diagnostic :=
  { title := "Rear Wheel Lockup"
    description := "The rear wheels are locking under braking. This is DANGEROUS and causes spins. Must be fixed immediately."
    severity := .critical
    priority := 1 }

/-- `RearLockupRule.evaluate`: on a keyword match, build the diagnostic and
explicitly (re)set `severity = Severity.CRITICAL`. -/
def rearLockupEvaluate (ctx : RuleContext) : Option Diagnostic :=
  if kwMatch ctx.driverFeedback rearLockupKeywords then
    some { rearLockupDiag with severity := .critical }
  else none

/-- The diagnostic built by `PowerOversteerRule` (class severity is
`WARNING`). -/
def powerOversteerDiag : Diagnostic :=
  { title := "Power Oversteer"
    description := "The rear snaps out suddenly when applying throttle. This is dangerous and needs to be addressed for car control."
    severity := .warning
    priority := 1 }

/-- `PowerOversteerRule.evaluate`: on a keyword match, build the diagnostic
and then override `severity = Severity.CRITICAL`. -/
def powerOversteerEvaluate (ctx : RuleContext) : Option Diagnostic :=
  if kwMatch ctx.driverFeedback powerOversteerKeywords then
    some { powerOversteerDiag with severity := .critical }
  else none

/-- `RuleEngine.evaluate`: run every registered rule, collect the matched
diagnostics, and stable-sort by `(severity_order, priority)`; diagnostics are
not modified. -/
def engineEvaluate (rules : List (RuleContext → Option Diagnostic))
    (ctx : RuleContext) : List Diagnostic :=
  sortAsc (fun d => (toLex ((severityRank d.severity : ℕ), d.priority) : ℕ ×ₗ ℤ))
    (rules.filterMap (fun r => r ctx))

/-! ## Concrete scenario data -/

/-- One sample of the spec's understeer-entry scenario: phase `entry`, equal
front/rear grip, average front slip ratio `0.02` above the rear average, all
other channels quiet for the GT3 ranges. -/
def c1Sample : Sample :=
  { phase := .entry, speed := 120, throttle := 0.2, brake := 0.3, steering := 0.1
    grip := ⟨1, 1, 1, 1⟩, slips := ⟨0.02, 0.02, 0, 0⟩
    tireTemp := ⟨85, 85, 85, 85⟩, brakeTemp := ⟨400, 400, 400, 400⟩
    rideHeight := ⟨20, 20, 20, 20⟩ }

/-- The scenario lap: 150 identical understeer-entry samples. -/
def c1Samples : List Sample := List.replicate 150 c1Sample

/-- Per-sample hypotheses of the understeer-entry scenario: phase `entry`,
front slip average exactly `0.02` above the rear average, equal front/rear
grip averages, and every other detection channel quiet (tire temperatures
averaging inside the GT3 window, brake temperatures under the ceiling, no
lock-up-range slip, no roll beyond 12, no ride height under 5). -/
def c1Scenario (s : Sample) : Prop :=
  s.phase = .entry ∧
  (|s.slips.fl| + |s.slips.fr|) / 2 = (|s.slips.rl| + |s.slips.rr|) / 2 + 0.02 ∧
  (s.grip.fl + s.grip.fr) / 2 = (s.grip.rl + s.grip.rr) / 2 ∧
  (150 ≤ s.tireTemp.fl + s.tireTemp.fr ∧ s.tireTemp.fl + s.tireTemp.fr ≤ 190) ∧
  (150 ≤ s.tireTemp.rl + s.tireTemp.rr ∧ s.tireTemp.rl + s.tireTemp.rr ≤ 190) ∧
  (max s.brakeTemp.fl s.brakeTemp.fr ≤ 700 ∧ max s.brakeTemp.rl s.brakeTemp.rr ≤ 700) ∧
  -0.1 ≤ s.slips.qmin ∧
  (|s.rideHeight.fl - s.rideHeight.fr| ≤ 12 ∧ |s.rideHeight.rl - s.rideHeight.rr| ≤ 12) ∧
  5 ≤ s.rideHeight.qmin

/-- The synthetic series of the Pearson sign property: values `1..10` with
outcomes `100 - i`. -/
def demoRange : ParameterRange :=
  { parameterName := "demo"
    minValue := 1
    maxValue := 10
    values := [1, 2, 3, 4, 5, 6, 7, 8, 9, 10]
    lapTimes := [99, 98, 97, 96, 95, 94, 93, 92, 91, 90] }

/-- A telemetry point qualifying for traction loss: full throttle with a rear
slip ratio of `0.2`. -/
def spinPoint : TelemetryPoint := ⟨100, 0.2, 0⟩

/-- "Zero variance" of a series: all members equal. -/
def allSame (l : List ℚ) : Prop := ∀ x ∈ l, ∀ y ∈ l, x = y

/-- The invariant of a `ParameterRange` entry maintained by
`_update_parameter_ranges`: nonempty values, `min_value`/`max_value` are the
extrema of `values`, and `values` and `lap_times` grow in lock step. -/
def rangeInv (pr : ParameterRange) : Prop :=
  pr.values ≠ [] ∧
  pr.minValue = listMin pr.values ∧
  pr.maxValue = listMax pr.values ∧
  pr.values.length = pr.lapTimes.length

/-! ## Helper lemmas -/

theorem penalizedScore_noEffects (param : SetupParameter) (b : ℚ) :
    penalizedScore noEffects param b = b := by
  unfold penalizedScore
  induction param.effects generalizing b with
  | nil => rfl
  | cons e es ih => simp_all [conflictsWith, noEffects]

theorem penalizedScore_pow (applied : AppliedEffects) (param : SetupParameter) (b : ℚ) :
    penalizedScore applied param b = b * (1 / 2) ^ conflictCount applied param := by
  unfold penalizedScore conflictCount
  induction param.effects generalizing b with
  | nil => simp
  | cons e es ih =>
    cases hc : conflictsWith applied e with
    | true =>
      simp only [List.foldl_cons, hc, if_true, List.countP_cons, pow_succ]
      rw [ih]
      simp
      ring
    | false =>
      simp only [List.foldl_cons, hc, if_false, List.countP_cons]
      rw [ih]
      simp

set_option maxHeartbeats 1600000 in
theorem findSolutions_ue :
    findSolutions .understeerEntry noEffects =
      [⟨"front_arb", 0.3, "increase"⟩, ⟨"front_spring", 0.25, "increase"⟩,
       ⟨"brake_bias", 0.25, "decrease"⟩, ⟨"front_slow_bump", 0.2, "increase"⟩,
       ⟨"rear_arb", 0.2, "decrease"⟩, ⟨"front_slow_rebound", 0.18, "decrease"⟩,
       ⟨"rear_spring", 0.15, "decrease"⟩, ⟨"front_toe", 0.15, "decrease"⟩,
       ⟨"front_wing", 0.15, "increase"⟩] := by
  rw [findSolutions]
  simp only [parameters, List.filterMap, effOf, effList, penalizedScore_noEffects]
  simp
  norm_num [sortAsc, insAsc, abs_of_nonneg, abs_of_nonpos]

set_option maxHeartbeats 1600000 in
theorem genRecs_ue_036 :
    (generateRecommendations [(Problem.understeerEntry, 36/100)]).head? =
      some ⟨"Barre Anti-Roulis AV", "increase", 3, [.understeerEntry], 27/250⟩ := by
  rw [generateRecommendations, rawRecommendations]
  simp only [sortAsc, insAsc, List.take, List.foldl, stepProblem]
  norm_num [findSolutions_ue, stepSolution, paramOf, parameters, assocStr, mkRecommendation,
    pyInt, dedupKeep, List.take, sortAsc, insAsc, List.foldl, Int.floor_eq_iff]

set_option maxHeartbeats 1600000 in
theorem genRecs_ue_one :
    generateRecommendations [(Problem.understeerEntry, 1)] =
      [⟨"Barre Anti-Roulis AV", "increase", 10, [.understeerEntry], 3/10⟩,
       ⟨"Ressort Avant", "increase", 10, [.understeerEntry], 1/4⟩] := by
  rw [generateRecommendations, rawRecommendations]
  simp only [sortAsc, insAsc, List.take, List.foldl, stepProblem]
  norm_num [findSolutions_ue, stepSolution, paramOf, parameters, assocStr, mkRecommendation,
    pyInt, dedupKeep, List.take, sortAsc, insAsc, List.foldl]

/-! ## Claim C7: strict vehicle-category thresholds -/

/-- C7: with positive speed, combined downforce strictly above 15000 gives
the top tier (`"LMH"`), strictly above 8000 gives the mid tier (`"LMP2"`),
and a combined downforce of exactly 15000 resolves to the mid tier. -/
theorem vehicle_category_strict (speedKmh ff rf : ℚ) (current : String)
    (hspeed : speedKmh > 0) :
    (ff + rf > 15000 → detectVehicleCategory speedKmh ff rf current = "LMH") ∧
    (ff + rf ≤ 15000 → ff + rf > 8000 →
      detectVehicleCategory speedKmh ff rf current = "LMP2") ∧
    (ff + rf = 15000 → detectVehicleCategory speedKmh ff rf current = "LMP2") := by
  unfold detectVehicleCategory
  rw [if_pos hspeed]
  refine ⟨fun h => by rw [if_pos h], fun hle hgt => ?_, fun heq => ?_⟩
  · rw [if_neg (by linarith), if_pos hgt]
  · rw [if_neg (by linarith), if_pos (by linarith)]

/-- C7 witness: speed 100 with downforce 7500 + 7500 = 15000 resolves to
`"LMP2"`. -/
theorem vehicle_category_strict_witness :
    (100 : ℚ) > 0 ∧ (7500 : ℚ) + 7500 = 15000 ∧
    detectVehicleCategory 100 7500 7500 "GT3" = "LMP2" :=
  ⟨by norm_num, by norm_num,
    (vehicle_category_strict 100 7500 7500 "GT3" (by norm_num)).2.2 (by norm_num)⟩

/-! ## Claim C2: conflict penalty halves the score exactly once -/

/-- C2: for a parameter with a nonzero effect on a problem, when exactly one
of its effects conflicts with the accumulated `applied_effects`, the score
`_find_solutions` computes for it is exactly half the score it computes in
isolation (empty accumulator). -/
theorem conflict_penalty_half (applied : AppliedEffects) (param : SetupParameter)
    (pb : Problem) (heff : effOf param pb ≠ 0)
    (hone : conflictCount applied param = 1) :
    penalizedScore applied param |effOf param pb| =
      penalizedScore noEffects param |effOf param pb| / 2 := by
  rw [penalizedScore_pow, penalizedScore_noEffects, hone]
  ring

/-- C2 witness: after applying `rear_ride_height` in the `"decrease"`
direction, scoring `front_fast_bump` for `BOTTOMING` meets exactly one
conflicting accumulated effect and is halved from 0.2 to 0.1. -/
theorem conflict_penalty_half_witness :
    ∃ param, paramOf "front_fast_bump" = some param ∧
    ∃ prev, paramOf "rear_ride_height" = some prev ∧
      effOf param .bottoming ≠ 0 ∧
      conflictCount (applyParamEffects noEffects prev "decrease") param = 1 ∧
      penalizedScore (applyParamEffects noEffects prev "decrease") param
          |effOf param .bottoming| =
        penalizedScore noEffects param |effOf param .bottoming| / 2 := by
  refine ⟨⟨"front_fast_bump", "Bump Rapide AV", "clicks", "dampers", [(.bottoming, -0.2)]⟩,
    by simp [paramOf, parameters, assocStr],
    ⟨"rear_ride_height", "Hauteur Caisse AR", "mm", "aero",
      [(.oversteerMid, 0.1), (.bottoming, -0.25), (.poorTraction, 0.08)]⟩,
    by simp [paramOf, parameters, assocStr], ?_, ?_, ?_⟩
  · norm_num [effOf, effList]
  · simp [conflictCount, applyParamEffects, noEffects, conflictsWith,
      List.countP, List.countP.go, List.foldl]
    norm_num
  · exact conflict_penalty_half _ _ .bottoming
      (by norm_num [effOf, effList])
      (by simp [conflictCount, applyParamEffects, noEffects, conflictsWith,
          List.countP, List.countP.go, List.foldl]
          norm_num)

/-! ## Claim C4: priority truncates, confidence is min(1, score*severity) -/

/-- C4 (amended): every recommendation built by `generate_recommendations`
for a problem of severity `s` and post-penalty score `k` has
`priority = int(s * 10)` (truncation toward zero, which for the nonnegative
severities is the floor, not rounding) and `confidence = min(1, k * s)`. -/
theorem recommendation_priority_confidence (pb : Problem) (s : ℚ)
    (param : SetupParameter) (k : ℚ) (dir : String) (hs : 0 ≤ s) :
    (mkRecommendation pb s param k dir).priority = ⌊s * 10⌋ ∧
    (mkRecommendation pb s param k dir).confidence = min 1 (k * s) := by
  constructor
  · simp only [mkRecommendation, pyInt]
    rw [if_pos (by positivity)]
  · rfl

/-- C4 witness: at severity 0.36 and score 0.3 the built recommendation has
priority `⌊3.6⌋ = 3` and confidence `min 1 0.108 = 0.108`. -/
theorem recommendation_priority_confidence_witness :
    (0 : ℚ) ≤ 36/100 ∧
    ∃ param, paramOf "front_arb" = some param ∧
      (mkRecommendation .understeerEntry (36/100) param (3/10) "increase").priority = 3 ∧
      (mkRecommendation .understeerEntry (36/100) param (3/10) "increase").confidence =
        27/250 := by
  refine ⟨by norm_num,
    ⟨"front_arb", "Barre Anti-Roulis AV", "N/mm", "suspension",
      [(.understeerEntry, -0.3), (.understeerMid, -0.35), (.oversteerExit, 0.2),
       (.excessiveRoll, -0.3), (.tireOverheatFront, 0.08)]⟩,
    by simp [paramOf, parameters, assocStr], ?_, ?_⟩
  · rw [(recommendation_priority_confidence .understeerEntry (36/100) _ (3/10) "increase"
      (by norm_num)).1]
    rw [Int.floor_eq_iff] <;> norm_num
  · rw [(recommendation_priority_confidence .understeerEntry (36/100) _ (3/10) "increase"
      (by norm_num)).2]
    norm_num

/-! ## Claim C3: capped, parameter-unique, priority-maximal output -/

theorem dedupKeep_not_seen (l : List Recommendation) (seen : List String) :
    ∀ r ∈ dedupKeep l seen, r.parameter ∉ seen := by
  induction l generalizing seen with
  | nil => simp [dedupKeep]
  | cons x xs ih =>
    intro r hr
    rw [dedupKeep] at hr
    by_cases hx : x.parameter ∈ seen
    · rw [if_pos hx] at hr
      exact ih seen r hr
    · rw [if_neg hx] at hr
      rcases List.mem_cons.mp hr with h | h
      · exact h ▸ hx
      · intro hmem
        exact ih (x.parameter :: seen) r h (List.mem_cons_of_mem _ hmem)

theorem dedupKeep_nodup (l : List Recommendation) (seen : List String) :
    ((dedupKeep l seen).map (fun r => r.parameter)).Nodup := by
  induction l generalizing seen with
  | nil => simp [dedupKeep]
  | cons x xs ih =>
    rw [dedupKeep]
    by_cases hx : x.parameter ∈ seen
    · rw [if_pos hx]
      exact ih seen
    · rw [if_neg hx]
      refine List.nodup_cons.mpr ⟨?_, ih (x.parameter :: seen)⟩
      intro hmem
      rcases List.mem_map.mp hmem with ⟨r, hr, hpar⟩
      exact dedupKeep_not_seen xs (x.parameter :: seen) r hr (hpar ▸ List.mem_cons_self _ _)

theorem dedupKeep_max_priority (l : List Recommendation) (seen : List String)
    (hsort : l.Pairwise (fun a b => b.priority ≤ a.priority)) :
    ∀ r ∈ dedupKeep l seen, ∀ r' ∈ l, r'.parameter = r.parameter →
      r'.priority ≤ r.priority := by
  induction l generalizing seen with
  | nil => simp [dedupKeep]
  | cons x xs ih =>
    rcases List.pairwise_cons.mp hsort with ⟨hxall, hxs⟩
    intro r hr r' hr' hpar
    rw [dedupKeep] at hr
    by_cases hx : x.parameter ∈ seen
    · rw [if_pos hx] at hr
      rcases List.mem_cons.mp hr' with h | h
      · exact absurd (show r.parameter ∈ seen from hpar ▸ h ▸ hx)
          (dedupKeep_not_seen xs seen r hr)
      · exact ih seen hxs r hr r' h hpar
    · rw [if_neg hx] at hr
      rcases List.mem_cons.mp hr with hrx | hrtail
      · subst hrx
        rcases List.mem_cons.mp hr' with h | h
        · rw [h]
        · exact hxall r' h
      · rcases List.mem_cons.mp hr' with h | h
        · refine absurd (show r.parameter ∈ x.parameter :: seen from ?_)
            (dedupKeep_not_seen xs (x.parameter :: seen) r hrtail)
          rw [← hpar, h]
          exact List.mem_cons_self _ _
        · exact ih (x.parameter :: seen) hxs r hrtail r' h hpar

/-- C3: for every problems dict, `generate_recommendations` returns at most
5 recommendations, never repeats a parameter name, and every returned
recommendation has the highest priority among all pre-deduplication
recommendations sharing its parameter name. -/
theorem recommendations_capped_unique (problems : List (Problem × ℚ)) :
    (generateRecommendations problems).length ≤ 5 ∧
    ((generateRecommendations problems).map (fun r => r.parameter)).Nodup ∧
    ∀ r ∈ generateRecommendations problems, ∀ r' ∈ rawRecommendations problems,
      r'.parameter = r.parameter → r'.priority ≤ r.priority := by
  refine ⟨?_, ?_, ?_⟩
  · rw [generateRecommendations]
    simpa [List.length_take] using min_le_left 5 _
  · rw [generateRecommendations, List.map_take]
    exact List.Nodup.sublist (List.take_sublist _ _) (dedupKeep_nodup _ _)
  · intro r hr r' hr' hpar
    rw [generateRecommendations] at hr
    have hr1 := List.mem_of_mem_take hr
    have hsorted : (sortAsc (fun r : Recommendation => -r.priority)
        (rawRecommendations problems)).Pairwise (fun a b => b.priority ≤ a.priority) :=
      (pairwise_sortAsc _ _).imp (fun h => by omega)
    exact dedupKeep_max_priority _ [] hsorted r hr1 r'
      ((mem_sortAsc _ _ _).mpr hr') hpar

/-- C3 witness: the concrete understeer-entry problems dict yields a list of
length at most 5 with pairwise-distinct parameter names. -/
theorem recommendations_capped_unique_witness :
    (generateRecommendations [(Problem.understeerEntry, 1)]).length ≤ 5 ∧
    ((generateRecommendations [(Problem.understeerEntry, 1)]).map
      (fun r => r.parameter)).Nodup :=
  ⟨(recommendations_capped_unique [(Problem.understeerEntry, 1)]).1,
   (recommendations_capped_unique [(Problem.understeerEntry, 1)]).2.1⟩

/-- C4 counterexample: for the problems dict `{UNDERSTEER_ENTRY: 0.36}` the
emitted top recommendation (post-penalty score 0.3) carries priority 3,
while `round(0.36 * 10) = 4`: the code truncates instead of rounding. -/
theorem recommendation_priority_rounding_counterexample :
    (generateRecommendations [(Problem.understeerEntry, 36/100)]).head? =
      some ⟨"Barre Anti-Roulis AV", "increase", 3, [.understeerEntry], 27/250⟩ ∧
    round ((36/100 : ℚ) * 10) = 4 ∧ (3 : ℤ) ≠ 4 := by
  refine ⟨genRecs_ue_036, ?_, by norm_num⟩
  rw [round_eq, Int.floor_eq_iff] <;> norm_num

/-! ## Claim C1: the understeer-entry scenario -/

theorem foldlMax_le (c : ℚ) : ∀ (l : List ℚ) (a : ℚ), a ≤ c → (∀ x ∈ l, x ≤ c) →
    l.foldl max a ≤ c := by
  intro l
  induction l with
  | nil => intro a ha _; exact ha
  | cons x xs ih =>
    intro a ha hall
    exact ih (max a x) (max_le ha (hall x (List.mem_cons_self _ _)))
      (fun y hy => hall y (List.mem_cons_of_mem _ hy))

theorem listMax_le (c : ℚ) (h0 : 0 ≤ c) (l : List ℚ) (h : ∀ x ∈ l, x ≤ c) :
    listMax l ≤ c := by
  cases l with
  | nil => exact h0
  | cons x xs =>
    exact foldlMax_le c xs x (h x (List.mem_cons_self _ _))
      (fun y hy => h y (List.mem_cons_of_mem _ hy))

theorem sampleUnder_of_scenario (s : Sample) (h : c1Scenario s) : sampleUnder s = true := by
  obtain ⟨-, hslip, -⟩ := h
  simp only [sampleUnder, Bool.or_eq_true, decide_eq_true_eq]
  right
  rw [hslip]
  norm_num

theorem analyzeBehavior_entry_scenario (samples : List Sample)
    (hn : samples.length = 150) (hq : ∀ s ∈ samples, c1Scenario s) :
    analyzeBehavior samples .entry = ⟨1, 0, 0⟩ := by
  have hfil : samples.filter (fun s => s.phase = CornerPhase.entry) = samples :=
    List.filter_eq_self.mpr (fun a ha => by simp [(hq a ha).1])
  rw [analyzeBehavior, hfil, hn]
  rw [if_neg (by norm_num)]
  have hunder : samples.countP (fun s => sampleUnder s) = 150 := by
    rw [List.countP_eq_length.mpr (fun a ha => sampleUnder_of_scenario a (hq a ha)), hn]
  have hover : samples.countP (fun s => !sampleUnder s && sampleOver s) = 0 :=
    List.countP_eq_zero.mpr (fun a ha => by
      simp [sampleUnder_of_scenario a (hq a ha)])
  have hneut : samples.countP (fun s => !sampleUnder s && !sampleOver s) = 0 :=
    List.countP_eq_zero.mpr (fun a ha => by
      simp [sampleUnder_of_scenario a (hq a ha)])
  rw [hunder, hover, hneut]
  norm_num

theorem analyzeBehavior_absent_scenario (samples : List Sample) (ph : CornerPhase)
    (hq : ∀ s ∈ samples, s.phase = .entry) (hne : ph ≠ .entry) :
    analyzeBehavior samples ph = ⟨0, 0, 1⟩ := by
  have hfil : samples.filter (fun s => s.phase = ph) = [] :=
    List.filter_eq_nil.mpr (fun a ha => by simp [hq a ha, Ne.symm hne])
  rw [analyzeBehavior, hfil]
  norm_num

theorem c1_detect (samples : List Sample) (hn : samples.length = 150)
    (hq : ∀ s ∈ samples, c1Scenario s) :
    detectProblems samples gt3Ranges = [(.understeerEntry, 1)] := by
  have hphase : ∀ s ∈ samples, s.phase = .entry := fun s hs => (hq s hs).1
  have hnn : samples ≠ [] := by
    intro h
    rw [h] at hn
    simp at hn
  have hB := analyzeBehavior_entry_scenario samples hn hq
  have hM := analyzeBehavior_absent_scenario samples .mid hphase (by simp)
  have hX := analyzeBehavior_absent_scenario samples .exit hphase (by simp)
  have hlen : ((samples.length : ℚ)) = 150 := by rw [hn]; norm_num
  -- tire temperature averages stay inside the GT3 window
  have hftBounds : 75 ≤ frontTireTemp samples ∧ frontTireTemp samples ≤ 95 := by
    have hsumLe : (samples.map (fun s => s.tireTemp.fl + s.tireTemp.fr)).sum ≤ 150 • (190 : ℚ) := by
      have := List.sum_le_card_nsmul (samples.map (fun s => s.tireTemp.fl + s.tireTemp.fr)) 190
        (fun x hx => by
          rcases List.mem_map.mp hx with ⟨s, hs, rfl⟩
          exact (hq s hs).2.2.2.1.2)
      rwa [List.length_map, hn] at this
    have hsumGe : 150 • (150 : ℚ) ≤ (samples.map (fun s => s.tireTemp.fl + s.tireTemp.fr)).sum := by
      have := List.card_nsmul_le_sum (samples.map (fun s => s.tireTemp.fl + s.tireTemp.fr)) 150
        (fun x hx => by
          rcases List.mem_map.mp hx with ⟨s, hs, rfl⟩
          exact (hq s hs).2.2.2.1.1)
      rwa [List.length_map, hn] at this
    rw [nsmul_eq_mul] at hsumLe hsumGe
    push_cast at hsumLe hsumGe
    rw [frontTireTemp, hlen]
    constructor
    · rw [le_div_iff (by norm_num)]
      linarith
    · rw [div_le_iff (by norm_num)]
      linarith
  have hrtBounds : 75 ≤ rearTireTemp samples ∧ rearTireTemp samples ≤ 95 := by
    have hsumLe : (samples.map (fun s => s.tireTemp.rl + s.tireTemp.rr)).sum ≤ 150 • (190 : ℚ) := by
      have := List.sum_le_card_nsmul (samples.map (fun s => s.tireTemp.rl + s.tireTemp.rr)) 190
        (fun x hx => by
          rcases List.mem_map.mp hx with ⟨s, hs, rfl⟩
          exact (hq s hs).2.2.2.2.1.2)
      rwa [List.length_map, hn] at this
    have hsumGe : 150 • (150 : ℚ) ≤ (samples.map (fun s => s.tireTemp.rl + s.tireTemp.rr)).sum := by
      have := List.card_nsmul_le_sum (samples.map (fun s => s.tireTemp.rl + s.tireTemp.rr)) 150
        (fun x hx => by
          rcases List.mem_map.mp hx with ⟨s, hs, rfl⟩
          exact (hq s hs).2.2.2.2.1.1)
      rwa [List.length_map, hn] at this
    rw [nsmul_eq_mul] at hsumLe hsumGe
    push_cast at hsumLe hsumGe
    rw [rearTireTemp, hlen]
    constructor
    · rw [le_div_iff (by norm_num)]
      linarith
    · rw [div_le_iff (by norm_num)]
      linarith
  have hfb : frontBrakePeak samples ≤ 700 :=
    listMax_le 700 (by norm_num) _ (fun x hx => by
      rcases List.mem_map.mp hx with ⟨s, hs, rfl⟩
      exact (hq s hs).2.2.2.2.2.1.1)
  have hrb : rearBrakePeak samples ≤ 700 :=
    listMax_le 700 (by norm_num) _ (fun x hx => by
      rcases List.mem_map.mp hx with ⟨s, hs, rfl⟩
      exact (hq s hs).2.2.2.2.2.1.2)
  have hws : wheelspinPct samples = 0 := by
    have hfil : samples.filter (fun s => s.phase = CornerPhase.exit) = [] :=
      List.filter_eq_nil.mpr (fun a ha => by simp [hphase a ha])
    rw [wheelspinPct, hfil]
    rfl
  have hlp : lockupPct samples = 0 := by
    have hfil : samples.filter
        (fun s => s.phase = CornerPhase.braking ∨ s.phase = CornerPhase.entry) = samples :=
      List.filter_eq_self.mpr (fun a ha => by simp [hphase a ha])
    rw [lockupPct, hfil]
    have hie : samples.isEmpty = false := by
      simp [List.isEmpty_iff, hnn]
    rw [hie, if_neg (by simp)]
    rw [List.countP_eq_zero.mpr (fun a ha => by
      simp only [decide_eq_true_eq, not_lt]
      have := (hq a ha).2.2.2.2.2.2.1
      linarith)]
    norm_num
  have hst : stabilityScore samples = 1 := by
    have hfil : samples.filter
        (fun s => s.phase = CornerPhase.straight ∧ s.speed > 180) = [] :=
      List.filter_eq_nil.mpr (fun a ha => by simp [hphase a ha])
    rw [stabilityScore, hfil]
    norm_num
  have hroll : maxRollOf samples ≤ 12 := by
    rw [maxRollOf]
    refine max_le ?_ ?_
    · exact listMax_le 12 (by norm_num) _ (fun x hx => by
        rcases List.mem_map.mp hx with ⟨s, hs, rfl⟩
        exact (hq s hs).2.2.2.2.2.2.2.1.1)
    · exact listMax_le 12 (by norm_num) _ (fun x hx => by
        rcases List.mem_map.mp hx with ⟨s, hs, rfl⟩
        exact (hq s hs).2.2.2.2.2.2.2.1.2)
  have hbf : bottomingFrac samples = 0 := by
    rw [bottomingFrac]
    rw [List.countP_eq_zero.mpr (fun a ha => by
      simp only [decide_eq_true_eq, not_lt]
      exact (hq a ha).2.2.2.2.2.2.2.2)]
    norm_num
  rw [detectProblems]
  simp only [hB, hM, hX, hws, hlp, hst, hbf, gt3Ranges]
  rw [if_pos (by norm_num)]
  rw [if_neg (by norm_num), if_neg (by norm_num), if_neg (by norm_num), if_neg (by norm_num),
    if_neg (by norm_num)]
  rw [if_neg (by push_neg; exact hftBounds.2), if_neg (by push_neg; exact hftBounds.1),
    if_neg (by push_neg; exact hrtBounds.2), if_neg (by push_neg; exact hrtBounds.1)]
  rw [if_neg (by push_neg; exact hfb), if_neg (by push_neg; exact hrb)]
  rw [if_neg (by norm_num), if_neg (by norm_num), if_neg (by norm_num)]
  rw [if_neg (by push_neg; exact hroll), if_neg (by norm_num)]
  rfl

/-- C1 (amended): for a 150-sample lap entirely in phase `entry` with the
front slip average exactly 0.02 above the rear (beyond the 0.015 margin),
equal front/rear grip, and all other detection channels quiet, the problems
dict is exactly `{UNDERSTEER_ENTRY: 1.0}` and the highest-priority
recommendation targets the front anti-roll bar with direction `"increase"`
(the code maps a negative helping effect to `"increase"`). -/
theorem understeer_entry_scenario (samples : List Sample) (hn : samples.length = 150)
    (hq : ∀ s ∈ samples, c1Scenario s) :
    detectProblems samples gt3Ranges = [(.understeerEntry, 1)] ∧
    (generateRecommendations (detectProblems samples gt3Ranges)).head? =
      some ⟨"Barre Anti-Roulis AV", "increase", 10, [.understeerEntry], 3/10⟩ := by
  have hd := c1_detect samples hn hq
  refine ⟨hd, ?_⟩
  rw [hd, genRecs_ue_one]
  rfl

/-- C1 witness: the canonical 150-sample scenario lap satisfies the
hypotheses and produces the asserted problems dict and top recommendation. -/
theorem understeer_entry_scenario_witness :
    c1Samples.length = 150 ∧
    detectProblems c1Samples gt3Ranges = [(.understeerEntry, 1)] ∧
    (generateRecommendations (detectProblems c1Samples gt3Ranges)).head? =
      some ⟨"Barre Anti-Roulis AV", "increase", 10, [.understeerEntry], 3/10⟩ := by
  have hn : c1Samples.length = 150 := by simp [c1Samples]
  have hq : ∀ s ∈ c1Samples, c1Scenario s := by
    intro s hs
    rcases List.mem_replicate.mp hs with ⟨-, rfl⟩
    norm_num [c1Scenario, c1Sample, Quad.qmin]
  exact ⟨hn, (understeer_entry_scenario c1Samples hn hq).1,
    (understeer_entry_scenario c1Samples hn hq).2⟩

/-- C1 counterexample: on the canonical scenario lap the problems dict is
`{UNDERSTEER_ENTRY: 1.0}` as claimed, but the top recommendation's direction
is `"increase"`, not `"decrease"` as the claim states. -/
theorem understeer_entry_direction_counterexample :
    detectProblems c1Samples gt3Ranges = [(.understeerEntry, 1)] ∧
    ((generateRecommendations (detectProblems c1Samples gt3Ranges)).head?.map
      (fun r => (r.parameter, r.direction))) = some ("Barre Anti-Roulis AV", "increase") ∧
    "increase" ≠ "decrease" := by
  have hn : c1Samples.length = 150 := by simp [c1Samples]
  have hq : ∀ s ∈ c1Samples, c1Scenario s := by
    intro s hs
    rcases List.mem_replicate.mp hs with ⟨-, rfl⟩
    norm_num [c1Scenario, c1Sample, Quad.qmin]
  have hd := c1_detect c1Samples hn hq
  refine ⟨hd, ?_, by decide⟩
  rw [hd, genRecs_ue_one]
  rfl

/-! ## Claim C8: traction-loss detection threshold and severities -/

theorem traction_foldl (points : List TelemetryPoint) : ∀ (c : ℕ) (m : ℚ),
    points.foldl tractionStep (c, m) =
      (c + points.countP tractionQualifies,
       ((points.filter tractionQualifies).map sampleTractionSeverity).foldl max m) := by
  induction points with
  | nil => simp
  | cons p ps ih =>
    intro c m
    rw [List.foldl_cons, tractionStep]
    by_cases h1 : p.throttle > 50
    · rw [if_pos h1]
      by_cases h2 : max |p.slipRL| |p.slipRR| > tractionSlipThreshold
      · have hq : tractionQualifies p = true := by
          simp [tractionQualifies, h1, h2]
        rw [if_pos h2, ih, List.countP_cons, List.filter_cons]
        simp only [hq, if_pos, List.map_cons, List.foldl_cons, sampleTractionSeverity]
        refine congrArg₂ Prod.mk (by omega) rfl
      · have hq : tractionQualifies p = false := by
          simp [tractionQualifies, h2]
        rw [if_neg h2, ih, List.countP_cons, List.filter_cons]
        simp [hq]
    · have hq : tractionQualifies p = false := by
        simp [tractionQualifies, h1]
      rw [if_neg h1, ih, List.countP_cons, List.filter_cons]
      simp [hq]

/-- C8 (amended): `_detect_traction_loss` flags a corner if and only if
strictly more than 3 samples qualify (throttle above 50 with the larger rear
slip-ratio magnitude above 0.15) — so at least 4, not the claimed "at least
3" — and the reported severity is the maximum of `min(100, ratio * 200)`
over the qualifying samples. -/
theorem traction_loss_detection (points : List TelemetryPoint) :
    ((detectTractionLoss points).1 = true ↔ 3 < points.countP tractionQualifies) ∧
    (detectTractionLoss points).2 = cornerTractionSeverity points := by
  rw [detectTractionLoss]
  by_cases hnil : points.isEmpty
  · rw [if_pos hnil]
    have h0 : points = [] := List.isEmpty_iff.mp hnil
    subst h0
    simp [cornerTractionSeverity]
  · rw [if_neg hnil]
    rw [traction_foldl points 0 0]
    simp [cornerTractionSeverity]

/-- C8 witness: four qualifying points are detected with severity 40. -/
theorem traction_loss_detection_witness :
    ((detectTractionLoss (List.replicate 4 spinPoint)).1 = true ↔
      3 < (List.replicate 4 spinPoint).countP tractionQualifies) ∧
    (detectTractionLoss (List.replicate 4 spinPoint)).2 =
      cornerTractionSeverity (List.replicate 4 spinPoint) :=
  traction_loss_detection (List.replicate 4 spinPoint)

/-- C8 counterexample: a corner with exactly 3 qualifying samples is not
flagged (`count > 3` fails), refuting the claimed "at least 3" threshold. -/
theorem traction_loss_three_samples_counterexample :
    List.countP tractionQualifies [spinPoint, spinPoint, spinPoint] = 3 ∧
    (detectTractionLoss [spinPoint, spinPoint, spinPoint]).1 = false := by
  have hq : tractionQualifies spinPoint = true := by
    simp only [tractionQualifies, spinPoint, tractionSlipThreshold]
    norm_num [abs_of_nonneg]
  constructor
  · simp [List.countP_cons, hq]
  · rw [detectTractionLoss, if_neg (by simp)]
    rw [traction_foldl]
    simp [hq]

/-! ## Claim C9: dangerous diagnoses are always CRITICAL -/

/-- C9: every diagnostic emitted by the rear lock-up or power-oversteer rule
has severity CRITICAL; a keyword match always emits one; and the rule
engine's evaluate path only reorders diagnostics (every member of its output
is exactly some rule's output), so nothing downgrades them. -/
theorem dangerous_rules_critical :
    (∀ ctx d, rearLockupEvaluate ctx = some d → d.severity = .critical) ∧
    (∀ ctx d, powerOversteerEvaluate ctx = some d → d.severity = .critical) ∧
    (∀ ctx, kwMatch ctx.driverFeedback rearLockupKeywords = true →
      ∃ d, rearLockupEvaluate ctx = some d) ∧
    (∀ ctx, kwMatch ctx.driverFeedback powerOversteerKeywords = true →
      ∃ d, powerOversteerEvaluate ctx = some d) ∧
    (∀ rules ctx d, d ∈ engineEvaluate rules ctx → ∃ r ∈ rules, r ctx = some d) := by
  refine ⟨?_, ?_, ?_, ?_, ?_⟩
  · intro ctx d h
    rw [rearLockupEvaluate] at h
    by_cases hm : kwMatch ctx.driverFeedback rearLockupKeywords
    · rw [if_pos hm] at h
      cases h
      rfl
    · rw [if_neg hm] at h
      cases h
  · intro ctx d h
    rw [powerOversteerEvaluate] at h
    by_cases hm : kwMatch ctx.driverFeedback powerOversteerKeywords
    · rw [if_pos hm] at h
      cases h
      rfl
    · rw [if_neg hm] at h
      cases h
  · intro ctx hm
    exact ⟨_, by rw [rearLockupEvaluate, if_pos hm]⟩
  · intro ctx hm
    exact ⟨_, by rw [powerOversteerEvaluate, if_pos hm]⟩
  · intro rules ctx d hd
    rw [engineEvaluate] at hd
    rcases List.mem_filterMap.mp ((mem_sortAsc _ _ _).mp hd) with ⟨r, hr, hrd⟩
    exact ⟨r, hr, hrd⟩

/-- C9 witness: concrete feedback strings matching each dangerous rule yield
CRITICAL diagnostics. -/
theorem dangerous_rules_critical_witness :
    (∃ d, rearLockupEvaluate ⟨"big rear lockup into the chicane"⟩ = some d) ∧
    (∀ d, rearLockupEvaluate ⟨"big rear lockup into the chicane"⟩ = some d →
      d.severity = .critical) ∧
    (∃ d, powerOversteerEvaluate ⟨"Snap Oversteer on exit"⟩ = some d) ∧
    (∀ d, powerOversteerEvaluate ⟨"Snap Oversteer on exit"⟩ = some d →
      d.severity = .critical) :=
  ⟨dangerous_rules_critical.2.2.1 ⟨"big rear lockup into the chicane"⟩ (by decide),
   fun d h => dangerous_rules_critical.1 ⟨"big rear lockup into the chicane"⟩ d h,
   dangerous_rules_critical.2.2.2.1 ⟨"Snap Oversteer on exit"⟩ (by decide),
   fun d h => dangerous_rules_critical.2.1 ⟨"Snap Oversteer on exit"⟩ d h⟩

/-! ## Claim C10: parameter-range accumulator invariant -/

theorem listMin_append (l : List ℚ) (v : ℚ) (h : l ≠ []) :
    listMin (l ++ [v]) = min (listMin l) v := by
  cases l with
  | nil => exact absurd rfl h
  | cons x xs => simp [listMin, List.cons_append, List.foldl_append, List.foldl]

theorem listMax_append (l : List ℚ) (v : ℚ) (h : l ≠ []) :
    listMax (l ++ [v]) = max (listMax l) v := by
  cases l with
  | nil => exact absurd rfl h
  | cons x xs => simp [listMax, List.cons_append, List.foldl_append, List.foldl]

theorem touch_inv (pr : ParameterRange) (v lt : ℚ) (h : rangeInv pr) :
    rangeInv (pr.touch v lt) := by
  obtain ⟨hne, hmin, hmax, hlen⟩ := h
  refine ⟨by simp [ParameterRange.touch], ?_, ?_, ?_⟩
  · simp only [ParameterRange.touch]
    rw [listMin_append _ _ hne, hmin]
  · simp only [ParameterRange.touch]
    rw [listMax_append _ _ hne, hmax]
  · simp [ParameterRange.touch, hlen]

theorem init_touch_inv (name : String) (v lt : ℚ) :
    rangeInv ((ParameterRange.init name v).touch v lt) := by
  refine ⟨by simp [ParameterRange.init, ParameterRange.touch], ?_, ?_,
    by simp [ParameterRange.init, ParameterRange.touch]⟩
  · simp [ParameterRange.init, ParameterRange.touch, listMin]
  · simp [ParameterRange.init, ParameterRange.touch, listMax]

theorem updParam_inv (st : List (String × ParameterRange)) :
    ∀ (name : String) (v lt : ℚ), (∀ e ∈ st, rangeInv e.2) →
      ∀ e ∈ updParam st name v lt, rangeInv e.2 := by
  induction st with
  | nil =>
    intro name v lt _ e he
    rw [updParam] at he
    rcases List.mem_singleton.mp he with rfl
    exact init_touch_inv name v lt
  | cons x xs ih =>
    intro name v lt hall e he
    rw [updParam] at he
    by_cases hx : x.1 = name
    · rw [if_pos hx] at he
      rcases List.mem_cons.mp he with rfl | h
      · exact touch_inv _ _ _ (hall x (List.mem_cons_self _ _))
      · exact hall e (List.mem_cons_of_mem _ h)
    · rw [if_neg hx] at he
      rcases List.mem_cons.mp he with rfl | h
      · exact hall e (List.mem_cons_self _ _)
      · exact ih name v lt (fun e' he' => hall e' (List.mem_cons_of_mem _ he')) e h

theorem updateParameterRanges_inv (params : List (String × ℚ)) :
    ∀ (st : List (String × ParameterRange)) (lapTime : ℚ),
      (∀ e ∈ st, rangeInv e.2) →
      ∀ e ∈ updateParameterRanges st params lapTime, rangeInv e.2 := by
  induction params with
  | nil => intro st lapTime hall e he; exact hall e he
  | cons p ps ih =>
    intro st lapTime hall e he
    rw [updateParameterRanges, List.foldl_cons] at he
    exact ih _ lapTime (updParam_inv st p.1 p.2 lapTime hall) e he

/-- C10: after every sequence of `add_session` calls on a fresh correlator,
every entry of `parameter_ranges` satisfies the invariant: nonempty values,
`min_value`/`max_value` equal the extrema of the values list, and `values`
and `lap_times` have equal length. -/
theorem parameter_ranges_invariant (sessions : List (List (String × ℚ) × ℚ)) :
    ∀ e ∈ runCorrelator sessions, rangeInv e.2 := by
  suffices h : ∀ (st : List (String × ParameterRange)), (∀ e ∈ st, rangeInv e.2) →
      ∀ e ∈ sessions.foldl (fun st s => updateParameterRanges st s.1 s.2) st, rangeInv e.2 by
    exact h [] (by simp)
  induction sessions with
  | nil => intro st hall e he; exact hall e he
  | cons s ss ih =>
    intro st hall e he
    rw [List.foldl_cons] at he
    exact ih _ (updateParameterRanges_inv s.1 st s.2 hall) e he

/-- C10 witness: a single session with one parameter produces an entry whose
invariant the theorem certifies. -/
theorem parameter_ranges_invariant_witness :
    runCorrelator [([("front_arb", 3)], 100)] =
      [("front_arb", ⟨"front_arb", 3, 3, [3], [100]⟩)] ∧
    rangeInv (⟨"front_arb", 3, 3, [3], [100]⟩ : ParameterRange) := by
  have heq : runCorrelator [([("front_arb", 3)], 100)] =
      [("front_arb", ⟨"front_arb", 3, 3, [3], [100]⟩)] := by
    simp [runCorrelator, updateParameterRanges, updParam, ParameterRange.init,
      ParameterRange.touch, List.foldl]
  refine ⟨heq, ?_⟩
  exact parameter_ranges_invariant [([("front_arb", 3)], 100)]
    ("front_arb", ⟨"front_arb", 3, 3, [3], [100]⟩) (by rw [heq]; exact List.mem_singleton.mpr rfl)

/-! ## Claim C6: degenerate correlator inputs degrade silently -/

theorem sum_all_eq (l : List ℚ) (c : ℚ) (h : ∀ x ∈ l, x = c) :
    l.sum = l.length * c := by
  induction l with
  | nil => simp
  | cons x xs ih =>
    rw [List.sum_cons, h x (List.mem_cons_self _ _),
      ih (fun y hy => h y (List.mem_cons_of_mem _ hy))]
    simp only [List.length_cons]
    push_cast
    ring

theorem allSame_sPart (l : List ℚ) (h : allSame l) : sPart l.length l = 0 := by
  cases l with
  | nil => simp [sPart, sumSq, sumL]
  | cons a as =>
    have hall : ∀ x ∈ a :: as, x = a := fun x hx => h x hx a (List.mem_cons_self _ _)
    have h1 : (a :: as).sum = ((a :: as).length : ℚ) * a := sum_all_eq _ _ hall
    have h2 : ((a :: as).map (fun x => x ^ 2)).sum = ((a :: as).length : ℚ) * a ^ 2 := by
      have := sum_all_eq ((a :: as).map (fun x => x ^ 2)) (a ^ 2) (fun x hx => by
        rcases List.mem_map.mp hx with ⟨y, hy, rfl⟩
        rw [hall y hy])
      rwa [List.length_map] at this
    rw [sPart, sumSq, sumL, h1, h2]
    ring

/-- C6: `analyze_correlations` (a total function in this embedding) returns
`[]` with fewer than 2 sessions; a parameter whose value series or lap-time
series has zero variance yields `None` from the correlation computation; and
every member of the returned list is a successfully computed correlation, so
degenerate parameters are silently omitted. -/
theorem correlator_degenerate_inputs :
    (∀ (n : ℕ) (ranges : List (String × ParameterRange)), n < 2 →
      analyzeCorrelations n ranges = []) ∧
    (∀ pr : ParameterRange,
      (allSame pr.values ∨ (pr.values.length = pr.lapTimes.length ∧ allSame pr.lapTimes)) →
      calcParamCorrelation pr = none) ∧
    (∀ (n : ℕ) (ranges : List (String × ParameterRange)) (c : SetupCorrelation),
      c ∈ analyzeCorrelations n ranges → ∃ e ∈ ranges, calcParamCorrelation e.2 = some c) := by
  refine ⟨?_, ?_, ?_⟩
  · intro n ranges h
    rw [analyzeCorrelations, if_pos h]
  · intro pr h
    rw [calcParamCorrelation]
    by_cases hlen : pr.values.length < 2
    · rw [if_pos hlen]
    · rw [if_neg hlen]
      have hz : (sPart pr.values.length pr.values * sPart pr.values.length pr.lapTimes : ℚ) = 0 := by
        rcases h with h | ⟨hl, h⟩
        · rw [allSame_sPart _ h, zero_mul]
        · rw [hl, allSame_sPart _ h, mul_zero]
      have hden : pearsonDen pr.values pr.lapTimes = 0 := by
        rw [pearsonDen, hz]
        simp
      simp only [hden, if_pos]
  · intro n ranges c hc
    rw [analyzeCorrelations] at hc
    by_cases h2 : n < 2
    · rw [if_pos h2] at hc
      simp at hc
    · rw [if_neg h2] at hc
      rcases List.mem_filterMap.mp ((mem_sortAsc _ _ _).mp hc) with ⟨e, he, heq⟩
      by_cases hl : e.2.values.length < 2
      · rw [if_pos hl] at heq
        cases heq
      · rw [if_neg hl] at heq
        exact ⟨e, he, heq⟩

/-- C6 witness: one session yields no correlations, and a zero-variance value
series is omitted. -/
theorem correlator_degenerate_inputs_witness :
    analyzeCorrelations 1 [("front_arb", ⟨"front_arb", 3, 3, [3], [100]⟩)] = [] ∧
    calcParamCorrelation ⟨"front_arb", 3, 3, [3, 3], [100, 101]⟩ = none :=
  ⟨correlator_degenerate_inputs.1 1 _ (by norm_num),
   correlator_degenerate_inputs.2.1 ⟨"front_arb", 3, 3, [3, 3], [100, 101]⟩
     (Or.inl (by norm_num [allSame]))⟩

/-! ## Claim C5: exact Pearson coefficient on the synthetic series -/

theorem demo_sPart_values : sPart 10 demoRange.values = 825 := by
  norm_num [sPart, sumSq, sumL, demoRange, List.map, List.sum_cons, List.sum_nil]

theorem demo_sPart_lapTimes : sPart 10 demoRange.lapTimes = 825 := by
  norm_num [sPart, sumSq, sumL, demoRange, List.map, List.sum_cons, List.sum_nil]

theorem demo_num : pearsonNum demoRange.values demoRange.lapTimes = -825 := by
  norm_num [pearsonNum, sumProd, sumL, demoRange, List.zipWith, List.sum_cons, List.sum_nil]

theorem demo_len : demoRange.values.length = 10 := by
  norm_num [demoRange]

theorem demo_den : pearsonDen demoRange.values demoRange.lapTimes = 825 := by
  rw [pearsonDen, demo_len, demo_sPart_values, demo_sPart_lapTimes]
  rw [show ((825 * 825 : ℚ) : ℝ) = (825 : ℝ) ^ 2 by push_cast; ring]
  exact Real.sqrt_sq (by norm_num)

theorem demo_corr :
    ((pearsonNum demoRange.values demoRange.lapTimes : ℚ) : ℝ) /
      pearsonDen demoRange.values demoRange.lapTimes = -1 := by
  rw [demo_num, demo_den]
  push_cast
  norm_num

theorem one_le_logb_two_eleven : (1 : ℝ) ≤ Real.logb 2 11 := by
  rw [Real.le_logb_iff_rpow_le (by norm_num) (by norm_num), Real.rpow_one]
  norm_num

/-- C5: on the synthetic series value `i`, outcome `100 - i` for `i = 1..10`
the correlator computes a Pearson coefficient of exactly `-1` and the
confidence `min(100, |r| * 100 * log2(n + 1))` clamps to exactly `100`. -/
theorem pearson_demo_exact :
    (calcParamCorrelation demoRange).map (fun c => c.lapTimeCorrelation) = some (-1) ∧
    (calcParamCorrelation demoRange).map (fun c => c.confidence) = some 100 := by
  have hden0 : ¬ pearsonDen demoRange.values demoRange.lapTimes = 0 := by
    rw [demo_den]
    norm_num
  have hconf : min (100 : ℝ)
      (|((pearsonNum demoRange.values demoRange.lapTimes : ℚ) : ℝ) /
          pearsonDen demoRange.values demoRange.lapTimes| * 100 *
        Real.logb 2 ((demoRange.values.length : ℝ) + 1)) = 100 := by
    rw [demo_corr, demo_len]
    simp only [abs_neg, abs_one, one_mul]
    have h1 := one_le_logb_two_eleven
    have h2 : ((10 : ℕ) : ℝ) + 1 = 11 := by push_cast; ring
    rw [h2, min_eq_left (by linarith)]
  rw [calcParamCorrelation, if_neg (by rw [demo_len]; norm_num), if_neg hden0]
  constructor
  · simp only [Option.map_some']
    rw [demo_corr]
  · simp only [Option.map_some']
    exact congrArg some hconf

end AGP
